import Mathlib

/-!
Verification of the pipeline-execution fetcher
(`src/pipeline_execution_fetcher.py`).

The Python program is shallowly embedded: JSON payloads become structures
with `Option` fields (a `none` models a missing key, read back through the
defensive `.get(..., default)` pattern of the source), the remote HTTP
service becomes either an abstract oracle `Nat → ...` indexed by page or
attempt number, or — for the end-to-end pagination / range-splitting
claims — a deterministic server model built from an explicit dataset of
timestamped execution records.  Stateful loops become fuel-indexed or
well-founded recursions that additionally report how many requests were
issued and which back-off delays were slept.
-/

/-! ## Data model: execution-listing payloads -/

/-- `moduleInfo.cd.serviceInfo` object: only `displayName` is read
(`service_info.get('displayName', '')`). -/
structure ServiceInfo where
  displayName : Option String
deriving DecidableEq, Repr

/-- `moduleInfo.cd.infraExecutionSummary` object: the source reads
`.get('type')` and `.get('name', '')`. -/
structure InfraSummary where
  type : Option String
  name : Option String
deriving DecidableEq, Repr

/-- The value under the `cd` key of a node's `moduleInfo`.
`serviceInfo := some none` models a `serviceInfo` key present with a JSON
`null` value (the source guards with `service_info and
isinstance(service_info, dict)`), while `none` models a missing key.
`hasOtherKeys` records whether the dict holds further keys, so that the
Python truthiness test `module_info['cd']` can be evaluated. -/
structure CdInfo where
  infraExecutionSummary : Option InfraSummary
  serviceInfo : Option (Option ServiceInfo)
  hasOtherKeys : Bool
deriving DecidableEq, Repr

/-- Python truthiness of the `cd` dict: nonempty iff it has some key. -/
def CdInfo.isTruthy (d : CdInfo) : Bool :=
  d.infraExecutionSummary.isSome || d.serviceInfo.isSome || d.hasOtherKeys

/-- One entry of `layoutNodeMap`.  `cd := some none` models a `cd` key
present with a JSON `null` value (falsy, hence skipped), `none` models a
missing `cd` key or a missing `moduleInfo` altogether (the source reads
`node_data.get('moduleInfo', {})` and then checks `'cd' in module_info`). -/
structure NodeData where
  cd : Option (Option CdInfo)
  name : Option String
  startTs : Option Int
  endTs : Option Int
  status : Option String
deriving DecidableEq, Repr

/-- The per-stage dictionary built by `extract_stage_data`. -/
structure StageInfo where
  stage_name : String
  start_time : Option Int
  end_time : Option Int
  status : String
  environment_name : String
  service_name : String
deriving DecidableEq, Repr

/-- One raw execution record of a `data.content` page. -/
structure Execution where
  name : Option String
  pipelineIdentifier : Option String
  planExecutionId : Option String
  layoutNodeMap : List (String × NodeData)
  startTs : Option Int
  endTs : Option Int
deriving DecidableEq, Repr

/-- The `data` object of an execution-listing response; every field is
optional because the source reads all of them defensively. -/
structure RawData where
  content : Option (List Execution)
  totalPages : Option Nat
  totalElements : Option Nat
deriving DecidableEq, Repr

/-- A decoded execution-listing response (`response.json()`). -/
structure RawResponse where
  data : Option RawData
deriving DecidableEq, Repr

/-- One output row (one CSV line) of the report. -/
structure Record where
  pipeline : String
  project_id : String
  execution_url : String
  service_name : String
  end_time : String
  start_time : String
  environment_name : String
  status : String
  duration : String
deriving DecidableEq, Repr

/-! ## Pure utilities: timestamp formatting and duration -/

/-- Two-digit zero padding, as Python's `f"{n:02d}"`. -/
def pad2 (n : Int) : String :=
  if 0 ≤ n ∧ n < 10 then "0" ++ toString n else toString n

/-- Four-digit zero padding for the year, as `strftime('%Y')`. -/
def pad4 (n : Int) : String :=
  if 0 ≤ n ∧ n < 10 then "000" ++ toString n
  else if 0 ≤ n ∧ n < 100 then "00" ++ toString n
  else if 0 ≤ n ∧ n < 1000 then "0" ++ toString n
  else toString n

/-- Proleptic-Gregorian civil date from days since the Unix epoch
(the calendar conversion performed by `datetime.fromtimestamp(..., utc)`). -/
def civil_from_days (z0 : Int) : Int × Int × Int :=
  let z := z0 + 719468
  let era := z.fdiv 146097
  let doe := z - era * 146097
  let yoe := (doe - doe.fdiv 1460 + doe.fdiv 36524 - doe.fdiv 146096).fdiv 365
  let y := yoe + era * 400
  let doy := doe - (365 * yoe + yoe.fdiv 4 - yoe.fdiv 100)
  let mp := (5 * doy + 2).fdiv 153
  let d := doy - (153 * mp + 2).fdiv 5 + 1
  let m := mp + (if mp < 10 then 3 else -9)
  (y + (if m ≤ 2 then 1 else 0), m, d)

/-- `format_timestamp`: millisecond timestamp to `'%Y-%m-%d %H:%M:%S'` in
UTC.  A missing value and `0` are falsy (`if not timestamp_ms: return ''`);
the source's `try/except` yields `''` for values `datetime` rejects, here
approximated by the year range 1–9999. -/
def format_timestamp (timestamp_ms : Option Int) : String :=
  match timestamp_ms with
  | none => ""
  | some ms =>
    if ms = 0 then ""
    else
      let total_seconds := ms.fdiv 1000
      let days := total_seconds.fdiv 86400
      let secs_of_day := total_seconds - days * 86400
      let ymd := civil_from_days days
      if ymd.1 < 1 ∨ 9999 < ymd.1 then ""
      else
        pad4 ymd.1 ++ "-" ++ pad2 ymd.2.1 ++ "-" ++ pad2 ymd.2.2 ++ " " ++
          pad2 (secs_of_day.fdiv 3600) ++ ":" ++
          pad2 ((secs_of_day.fmod 3600).fdiv 60) ++ ":" ++
          pad2 (secs_of_day.fmod 60)

/-- `calculate_duration`: `HH:MM:SS` between two millisecond timestamps;
missing or zero endpoints are falsy and give `''`.  Python's
`int(duration_ms / 1000.0)` truncates toward zero (`Int.quot`), `//` and
`%` are floor division and floor modulus (`Int.fdiv` / `Int.fmod`). -/
def calculate_duration (start_ts end_ts : Option Int) : String :=
  match start_ts, end_ts with
  | some s, some e =>
    if s = 0 ∨ e = 0 then ""
    else
      let duration_ms := e - s
      let duration_seconds : Int := Int.tdiv duration_ms 1000
      let hours := duration_seconds.fdiv 3600
      let minutes := (duration_seconds.fmod 3600).fdiv 60
      let seconds := duration_seconds.fmod 60
      pad2 hours ++ ":" ++ pad2 minutes ++ ":" ++ pad2 seconds
  | _, _ => ""

/-! ## `extract_stage_data` -/

/-- `extract_stage_data`: walk `layoutNodeMap` in order; a node is kept
when its `moduleInfo` has a truthy `cd` entry whose
`infraExecutionSummary.type` equals `env_filter` (default `"Production"`).
`execution_id` is accepted for parity with the source, which uses it only
for debugging. -/
def extract_stage_data (layout_node_map : List (String × NodeData))
    (env_filter : String := "Production") (execution_id : String := "") :
    List StageInfo :=
  layout_node_map.flatMap fun node =>
    match node.2.cd with
    | some (some cd_info) =>
      if cd_info.isTruthy then
        let env_type : Option String :=
          match cd_info.infraExecutionSummary with
          | some infra => infra.type
          | none => none
        let env_name : String :=
          match cd_info.infraExecutionSummary with
          | some infra => infra.name.getD ""
          | none => ""
        if env_type = some env_filter then
          let service_name : String :=
            match cd_info.serviceInfo with
            | some (some service_info) => service_info.displayName.getD ""
            | _ => ""
          [{ stage_name := node.2.name.getD ""
             start_time := node.2.startTs
             end_time := node.2.endTs
             status := node.2.status.getD ""
             environment_name := env_name
             service_name := service_name }]
        else []
      else []
    | _ => []

/-- The value of `moduleInfo.get('cd', {}).get('infraExecutionSummary',
{}).get('type')` for a node: the nested environment-type lookup the
retention decision of `extract_stage_data` turns on. -/
def node_cd_type (node_data : NodeData) : Option String :=
  match node_data.cd with
  | some (some cd_info) =>
    match cd_info.infraExecutionSummary with
    | some infra => infra.type
    | none => none
  | _ => none

/-- The stage dictionary `extract_stage_data` emits for a retained node. -/
def node_stage (node_data : NodeData) : StageInfo :=
  { stage_name := node_data.name.getD ""
    start_time := node_data.startTs
    end_time := node_data.endTs
    status := node_data.status.getD ""
    environment_name :=
      match node_data.cd with
      | some (some cd_info) =>
        match cd_info.infraExecutionSummary with
        | some infra => infra.name.getD ""
        | none => ""
      | _ => ""
    service_name :=
      match node_data.cd with
      | some (some cd_info) =>
        match cd_info.serviceInfo with
        | some (some service_info) => service_info.displayName.getD ""
        | _ => ""
      | _ => "" }

/-! ## `parse_execution_data` -/

/-- Defensive access `response_data.get('data', {}).get('content', [])`. -/
def response_content (r : RawResponse) : List Execution :=
  match r.data with
  | none => []
  | some d => d.content.getD []

/-- Defensive access `response_data.get('data', {}).get('totalPages', 0)`. -/
def response_total_pages (r : RawResponse) : Nat :=
  match r.data with
  | none => 0
  | some d => d.totalPages.getD 0

/-- Defensive access `response_data.get('data', {}).get('totalElements', 0)`. -/
def response_total_elements (r : RawResponse) : Nat :=
  match r.data with
  | none => 0
  | some d => d.totalElements.getD 0

/-- The execution URL built for every output row (`/gateway` stripped from
the base URL, as in the source). -/
def mk_execution_url (base_url account_id org_id project_id
    pipeline_identifier execution_id : String) : String :=
  let url_base := base_url.replace "/gateway" ""
  url_base ++ "/ng/#/account/" ++ account_id ++ "/cd/orgs/" ++ org_id ++
    "/projects/" ++ project_id ++ "/pipelines/" ++ pipeline_identifier ++
    "/executions/" ++ execution_id ++ "/pipeline"

/-- The output row built for one (execution, stage) pair — the body of the
`for stage in stages` loop of `parse_execution_data`. -/
def execution_record (base_url account_id org_id project_id : String)
    (execution : Execution) (stage : StageInfo) : Record :=
  { pipeline := execution.name.getD ""
    project_id := project_id
    execution_url :=
      mk_execution_url base_url account_id org_id project_id
        (execution.pipelineIdentifier.getD "") (execution.planExecutionId.getD "")
    service_name := stage.service_name
    end_time := format_timestamp execution.endTs
    start_time := format_timestamp execution.startTs
    environment_name := stage.environment_name
    status := stage.status
    duration := calculate_duration execution.startTs execution.endTs }

/-- Body of the `for execution in content` loop of `parse_execution_data`:
extract the stages, skip the execution when none qualify
(`if not stages: continue`), else one row per stage. -/
def parse_one_execution (base_url account_id org_id project_id : String)
    (execution : Execution) : List Record :=
  let stages :=
    extract_stage_data execution.layoutNodeMap "Production"
      (execution.planExecutionId.getD "")
  if stages.isEmpty then []
  else stages.map (execution_record base_url account_id org_id project_id execution)

/-- `parse_execution_data`: flatten one page's `content` into output rows. -/
def parse_execution_data (response_data : RawResponse)
    (base_url account_id org_id project_id : String) : List Record :=
  (response_content response_data).flatMap
    (parse_one_execution base_url account_id org_id project_id)

/-! ## Remote fetch clients

A network attempt is modelled by an oracle `Nat → Except String α`: index
`i` is the outcome of the `i`-th request the function would issue (the
decoded JSON on success, the exception message on failure). -/

/-- The retry loop of `fetch_pipeline_executions` (`for attempt in
range(max_retries)`): on failure before the last attempt, sleep
`(attempt + 1) * 2` seconds and try again; on the last attempt re-raise.
Returns the outcome, the number of attempts issued and the list of waits
slept (in seconds). -/
def fetch_pipeline_executions_retry (oracle : Nat → Except String RawResponse)
    (max_retries attempt : Nat) : Except String RawResponse × Nat × List Nat :=
  match oracle attempt with
  | .ok r => (.ok r, 1, [])
  | .error e =>
    if h : attempt < max_retries - 1 then
      let wait_time := (attempt + 1) * 2
      let rest := fetch_pipeline_executions_retry oracle max_retries (attempt + 1)
      (rest.1, rest.2.1 + 1, wait_time :: rest.2.2)
    else
      (.error e, 1, [])
termination_by max_retries - attempt
decreasing_by omega

/-- `fetch_pipeline_executions`: one logical fetch against the
execution-listing endpoint, `max_retries = 3`, starting at attempt 0. -/
def fetch_pipeline_executions (oracle : Nat → Except String RawResponse) :
    Except String RawResponse × Nat × List Nat :=
  fetch_pipeline_executions_retry oracle 3 0

/-! ## Project-listing payloads and `fetch_projects` -/

/-- The `project` object under `projectResponse`. -/
structure ProjectInner where
  identifier : Option String
deriving DecidableEq, Repr

/-- The `projectResponse` wrapper of one project-listing entry. -/
structure ProjectResponseWrap where
  project : Option ProjectInner
deriving DecidableEq, Repr

/-- One entry of a project-listing `data.content` page. -/
structure ProjectEntry where
  projectResponse : Option ProjectResponseWrap
deriving DecidableEq, Repr

/-- The `data` object of a project-listing response. -/
structure ProjRawData where
  content : Option (List ProjectEntry)
  totalPages : Option Nat
  totalElements : Option Nat
deriving DecidableEq, Repr

/-- A decoded project-listing response. -/
structure ProjRawResponse where
  data : Option ProjRawData
deriving DecidableEq, Repr

/-- `project.get('projectResponse', {}).get('project', {}).get('identifier')`. -/
def project_entry_identifier (entry : ProjectEntry) : Option String :=
  match entry.projectResponse with
  | none => none
  | some pr =>
    match pr.project with
    | none => none
    | some inner => inner.identifier

/-- `if project_identifier: all_projects.append(project_identifier)` —
a missing, null or empty identifier is falsy and the entry is dropped. -/
def keep_identifier (entry : ProjectEntry) : Option String :=
  match project_entry_identifier entry with
  | some s => if s = "" then none else some s
  | none => none

/-- Defensive access to a project page's `content`. -/
def proj_response_content (r : ProjRawResponse) : List ProjectEntry :=
  match r.data with
  | none => []
  | some d => d.content.getD []

/-- Defensive access to a project page's `totalPages`. -/
def proj_response_total_pages (r : ProjRawResponse) : Nat :=
  match r.data with
  | none => 0
  | some d => d.totalPages.getD 0

/-- `fetch_projects`: a single `requests.get` against the project-listing
endpoint with no retry loop — the outcome (success or re-raised failure)
is returned as is, after exactly one request. -/
def fetch_projects (oracle : Nat → Except String ProjRawResponse) :
    Except String ProjRawResponse × Nat :=
  (oracle 0, 1)

/-- The `while True` loop of `fetch_all_projects`: fetch page
`page_index`, collect the truthy identifiers, stop when
`page_index >= total_pages - 1`, else advance (`fuel` bounds the number of
further iterations; every theorem supplies enough of it).  A failing fetch
propagates, discarding everything collected so far, exactly as the Python
exception would.  The second component counts requests issued. -/
def fetch_all_projects_loop (oracle : Nat → Except String ProjRawResponse)
    (page_index fuel : Nat) : Except String (List String) × Nat :=
  match (fetch_projects (fun k => oracle (page_index + k))).1 with
  | .error e => (.error e, 1)
  | .ok response_data =>
    let content := proj_response_content response_data
    let total_pages := proj_response_total_pages response_data
    let page_ids := content.filterMap keep_identifier
    if page_index ≥ total_pages - 1 then (.ok page_ids, 1)
    else
      match fuel with
      | 0 => (.ok page_ids, 1)
      | fuel' + 1 =>
        let rest := fetch_all_projects_loop oracle (page_index + 1) fuel'
        (match rest.1 with
         | .error e => .error e
         | .ok ids => .ok (page_ids ++ ids), rest.2 + 1)

/-- `fetch_all_projects`: enumerate identifiers starting from page 0. -/
def fetch_all_projects (oracle : Nat → Except String ProjRawResponse)
    (fuel : Nat) : Except String (List String) × Nat :=
  fetch_all_projects_loop oracle 0 fuel

/-! ## `fetch_project_executions_batch` (single-range paginator) -/

/-- The `while True` page walk of `fetch_project_executions_batch`: fetch
page `page`, reread `totalPages` from the response, parse and accumulate
the page's records, stop when `page >= total_pages - 1 or total_pages == 0`
(the comparison is on Python ints; for the nonnegative `totalPages` of the
model, truncated `Nat` subtraction decides it identically).  `fuel` bounds
further iterations; theorems supply enough.  Returns the accumulated
records and the number of requests issued. -/
def fetch_project_executions_batch_loop (oracle : Nat → RawResponse)
    (base_url account_id org_id project_id : String)
    (page fuel : Nat) : List Record × Nat :=
  let response_data := oracle page
  let total_pages := response_total_pages response_data
  let records :=
    parse_execution_data response_data base_url account_id org_id project_id
  if page ≥ total_pages - 1 ∨ total_pages = 0 then (records, 1)
  else
    match fuel with
    | 0 => (records, 1)
    | fuel' + 1 =>
      let rest :=
        fetch_project_executions_batch_loop oracle base_url account_id org_id
          project_id (page + 1) fuel'
      (records ++ rest.1, rest.2 + 1)

/-- `fetch_project_executions_batch`: walk all pages starting at page 0. -/
def fetch_project_executions_batch (oracle : Nat → RawResponse)
    (base_url account_id org_id project_id : String) (fuel : Nat) :
    List Record × Nat :=
  fetch_project_executions_batch_loop oracle base_url account_id org_id
    project_id 0 fuel

/-! ## Server model

The remote service is a black box; per spec §3/§6 it is modelled by a
dataset of (timestamp, execution) pairs.  A query for a closed window
`[s, e]` matches the rows whose timestamp lies in the window, reports
`totalElements` as their count and `totalPages` as the ceiling of
count / page size, and serves page `page` as the corresponding slice. -/

/-- The rows of the dataset matching the closed window `[s, e]`. -/
def server_matching (ds : List (Int × Execution)) (s e : Int) :
    List (Int × Execution) :=
  ds.filter fun row => decide (s ≤ row.1 ∧ row.1 ≤ e)

/-- The response the modelled server returns for window `[s, e]`, page
`page`, page size `size`. -/
def server_response (ds : List (Int × Execution)) (s e : Int)
    (page size : Nat) : RawResponse :=
  let matching := server_matching ds s e
  { data := some
      { content := some (((matching.drop (page * size)).take size).map Prod.snd)
        totalPages := some ((matching.length + size - 1) / size)
        totalElements := some matching.length } }

/-- The single-range paginator run against the modelled server: fuel
`totalPages` always suffices, because the loop issues at most `totalPages`
requests (and exactly one when `totalPages = 0`). -/
def fetch_project_executions_batch_server (ds : List (Int × Execution))
    (base_url account_id org_id project_id : String) (size : Nat)
    (s e : Int) : List Record :=
  (fetch_project_executions_batch (fun page => server_response ds s e page size)
    base_url account_id org_id project_id
    (response_total_pages (server_response ds s e 0 size))).1

/-! ## `fetch_project_executions` (range splitter / batch orchestrator) -/

/-- `batch_size_ms = 10 * 24 * 60 * 60 * 1000`: the 10-day sub-window
width of the splitter. -/
def batch_size_ms : Int := 10 * 24 * 60 * 60 * 1000

/-- The sub-windows the `while current_start < end_time` loop of
`fetch_project_executions` iterates over:
`[current_start, min(current_start + batch_size_ms - 1, end_time)]`,
advancing `current_start = current_end + 1`. -/
def batch_windows (current_start end_time : Int) : List (Int × Int) :=
  if h : current_start < end_time then
    let current_end := min (current_start + batch_size_ms - 1) end_time
    (current_start, current_end) :: batch_windows (current_end + 1) end_time
  else []
termination_by (end_time - current_start).toNat
decreasing_by
  simp only [batch_size_ms]
  omega

/-- The splitting loop of `fetch_project_executions`, run against the
modelled server: fetch each 10-day sub-window with the single-range
paginator and concatenate. -/
def fetch_executions_split_loop (ds : List (Int × Execution))
    (base_url account_id org_id project_id : String) (size : Nat)
    (current_start end_time : Int) : List Record :=
  if h : current_start < end_time then
    let current_end := min (current_start + batch_size_ms - 1) end_time
    let batch_records :=
      fetch_project_executions_batch_server ds base_url account_id org_id
        project_id size current_start current_end
    batch_records ++
      fetch_executions_split_loop ds base_url account_id org_id project_id size
        (current_end + 1) end_time
  else []
termination_by (end_time - current_start).toNat
decreasing_by
  simp only [batch_size_ms]
  omega

/-- `fetch_project_executions` against the modelled server: probe page 0
of the full window to read `totalElements`; when it is at most 10000 reuse
the probe page and walk the remaining pages `1 .. totalPages - 1` of the
full window, else discard the probe and split into 10-day sub-windows. -/
def fetch_project_executions (ds : List (Int × Execution))
    (base_url account_id org_id project_id : String) (size : Nat)
    (start_time end_time : Int) : List Record :=
  let response_data := server_response ds start_time end_time 0 size
  let total_elements := response_total_elements response_data
  if total_elements ≤ 10000 then
    let all_records :=
      parse_execution_data response_data base_url account_id org_id project_id
    let total_pages := response_total_pages response_data
    all_records ++
      (List.range' 1 (total_pages - 1)).flatMap fun page =>
        parse_execution_data (server_response ds start_time end_time page size)
          base_url account_id org_id project_id
  else
    fetch_executions_split_loop ds base_url account_id org_id project_id size
      start_time end_time

/-! ## Concrete data used by counterexamples and witnesses -/

/-- A service object with a display name. -/
def prod_service : ServiceInfo := { displayName := some "checkout-svc" }

/-- An infrastructure summary of type `"Production"`. -/
def prod_infra : InfraSummary := { type := some "Production", name := some "prod-env" }

/-- A `cd` module-info dict with a Production infra summary and a service. -/
def prod_cd : CdInfo :=
  { infraExecutionSummary := some prod_infra
    serviceInfo := some (some prod_service)
    hasOtherKeys := false }

/-- A layout node holding `prod_cd`. -/
def prod_node : NodeData :=
  { cd := some (some prod_cd)
    name := some "deploy"
    startTs := some 1700000000000
    endTs := some 1700000005000
    status := some "Success" }

/-- An execution with exactly one qualifying Production stage. -/
def prod_execution : Execution :=
  { name := some "nightly"
    pipelineIdentifier := some "nightly_pipe"
    planExecutionId := some "exec1"
    layoutNodeMap := [("n1", prod_node)]
    startTs := some 1700000000000
    endTs := some 1700000005000 }

/-- A dataset with 10001 matching executions over the closed window
`[0, 864000000]` (exactly 10 days): 10000 at timestamp 0 and one at the
final millisecond `864000000`. -/
def boundary_dataset : List (Int × Execution) :=
  List.replicate 10000 ((0 : Int), prod_execution) ++
    [((864000000 : Int), prod_execution)]

/-- A `cd` dict with a Production infra summary but no `serviceInfo` key. -/
def demo_cd : CdInfo :=
  { infraExecutionSummary := some { type := some "Production", name := some "prod" }
    serviceInfo := none
    hasOtherKeys := false }

/-- A node retained by the Production filter, without service metadata. -/
def demo_node : NodeData :=
  { cd := some (some demo_cd)
    name := some "deploy"
    startTs := some 5
    endTs := some 9
    status := some "Success" }

/-- A two-node layout map: one qualifying node, one without any `cd` key. -/
def demo_map : List (String × NodeData) :=
  [("n1", demo_node),
   ("n2", { cd := none, name := some "build", startTs := none, endTs := none,
            status := none })]

/-- A well-formed empty execution page (`totalPages = 0`, no content). -/
def empty_exec_response : RawResponse :=
  { data := some { content := some [], totalPages := some 0, totalElements := some 0 } }

/-- An execution-listing response with no `data` key at all. -/
def malformed_response : RawResponse := { data := none }

/-- A project entry carrying identifier `"alpha"`. -/
def entry_alpha : ProjectEntry :=
  { projectResponse := some { project := some { identifier := some "alpha" } } }

/-- A project entry whose `projectResponse` key is missing. -/
def entry_missing : ProjectEntry := { projectResponse := none }

/-- A project entry whose identifier is the empty string. -/
def entry_empty_id : ProjectEntry :=
  { projectResponse := some { project := some { identifier := some "" } } }

/-- First project page of the two-page enumeration scenario. -/
def c10_page0 : ProjRawResponse :=
  { data := some { content := some [entry_alpha, entry_missing]
                   totalPages := some 2, totalElements := some 4 } }

/-- Second project page of the two-page enumeration scenario. -/
def c10_page1 : ProjRawResponse :=
  { data := some { content := some [entry_empty_id, entry_alpha]
                   totalPages := some 2, totalElements := some 4 } }

/-- The per-page responses of the enumeration scenario. -/
def c10_resps : Nat → ProjRawResponse :=
  fun p => if p = 0 then c10_page0 else c10_page1

/-- An always-succeeding project oracle serving `c10_resps`. -/
def c10_oracle : Nat → Except String ProjRawResponse :=
  fun p => .ok (c10_resps p)

/-- A three-page project listing whose second request fails. -/
def c4_page0 : ProjRawResponse :=
  { data := some { content := some [entry_alpha]
                   totalPages := some 3, totalElements := some 41 } }

/-- A project oracle that succeeds on page 0 and fails afterwards. -/
def c4_oracle : Nat → Except String ProjRawResponse :=
  fun p => if p = 0 then .ok c4_page0 else .error "connection reset"

/-! ## Theorems -/

theorem batch_size_ms_eq : batch_size_ms = 864000000 := by
  norm_num [batch_size_ms]

theorem batch_windows_of_lt {s e : Int} (h : s < e) :
    batch_windows s e =
      (s, min (s + batch_size_ms - 1) e) ::
        batch_windows (min (s + batch_size_ms - 1) e + 1) e := by
  rw [batch_windows]
  simp [h]

theorem batch_windows_of_ge {s e : Int} (h : ¬ s < e) :
    batch_windows s e = [] := by
  rw [batch_windows]
  simp [h]

theorem batch_windows_chain (s e : Int) :
    List.Chain' (fun w1 w2 : Int × Int => w1.2 + 1 = w2.1) (batch_windows s e) := by
  by_cases h : s < e
  · rw [batch_windows_of_lt h, List.chain'_cons']
    constructor
    · intro b hb
      by_cases h2 : min (s + batch_size_ms - 1) e + 1 < e
      · rw [batch_windows_of_lt h2] at hb
        simp only [List.head?_cons, Option.mem_def, Option.some_inj] at hb
        rw [← hb]
      · rw [batch_windows_of_ge h2] at hb
        simp at hb
    · exact batch_windows_chain (min (s + batch_size_ms - 1) e + 1) e
  · rw [batch_windows_of_ge h]
    simp
termination_by (e - s).toNat
decreasing_by
  simp only [batch_size_ms]
  omega

theorem batch_windows_mem {s e : Int} {w : Int × Int}
    (hw : w ∈ batch_windows s e) :
    s ≤ w.1 ∧ w.1 ≤ w.2 ∧ w.2 - w.1 + 1 ≤ batch_size_ms ∧ w.2 ≤ e := by
  by_cases h : s < e
  · rw [batch_windows_of_lt h] at hw
    rcases List.mem_cons.mp hw with h1 | h1
    · subst h1
      simp only [batch_size_ms] at *
      refine ⟨le_refl _, ?_, ?_, ?_⟩ <;> omega
    · have ih := batch_windows_mem h1
      simp only [batch_size_ms] at *
      refine ⟨?_, ih.2.1, ih.2.2.1, ih.2.2.2⟩
      omega
  · rw [batch_windows_of_ge h] at hw
    simp at hw
termination_by (e - s).toNat
decreasing_by
  simp only [batch_size_ms]
  omega

theorem batch_windows_ne_nil {s e : Int} (h : s < e) :
    batch_windows s e ≠ [] := by
  rw [batch_windows_of_lt h]
  simp

theorem batch_windows_getLast {s e : Int} (hle : s ≤ e)
    (hnd : ¬ ((864000000 : Int) ∣ (e - s))) :
    ((batch_windows s e).getLast?).map Prod.snd = some e := by
  have hW : batch_size_ms = 864000000 := batch_size_ms_eq
  have hlt : s < e := by
    rcases lt_or_eq_of_le hle with h | h
    · exact h
    · exfalso
      apply hnd
      rw [← h]
      simp
  rw [batch_windows_of_lt hlt]
  by_cases h2 : min (s + batch_size_ms - 1) e + 1 < e
  · have hmin : min (s + batch_size_ms - 1) e = s + batch_size_ms - 1 := by
      rw [hW] at *
      omega
    have hnd' : ¬ ((864000000 : Int) ∣ (e - (min (s + batch_size_ms - 1) e + 1))) := by
      rw [hmin, hW]
      intro hd
      apply hnd
      omega
    have hle' : min (s + batch_size_ms - 1) e + 1 ≤ e := le_of_lt h2
    have hrec := batch_windows_getLast hle' hnd'
    have hne : batch_windows (min (s + batch_size_ms - 1) e + 1) e ≠ [] :=
      batch_windows_ne_nil h2
    rcases List.exists_cons_of_ne_nil hne with ⟨hd, tl, heq⟩
    rw [heq] at hrec ⊢
    rw [List.getLast?_cons_cons]
    exact hrec
  · have hmin : min (s + batch_size_ms - 1) e = e := by
      rw [hW] at h2 ⊢
      omega
    rw [hmin]
    have hstop : ¬ (e + 1 < e) := by omega
    rw [batch_windows_of_ge hstop]
    simp
termination_by (e - s).toNat
decreasing_by
  simp only [batch_size_ms]
  omega

theorem fetch_executions_split_loop_of_lt (ds : List (Int × Execution))
    (b a o p : String) (size : Nat) {s e : Int} (h : s < e) :
    fetch_executions_split_loop ds b a o p size s e =
      fetch_project_executions_batch_server ds b a o p size s
          (min (s + batch_size_ms - 1) e) ++
        fetch_executions_split_loop ds b a o p size
          (min (s + batch_size_ms - 1) e + 1) e := by
  rw [fetch_executions_split_loop]
  simp [h]

theorem fetch_executions_split_loop_of_ge (ds : List (Int × Execution))
    (b a o p : String) (size : Nat) {s e : Int} (h : ¬ s < e) :
    fetch_executions_split_loop ds b a o p size s e = [] := by
  rw [fetch_executions_split_loop]
  simp [h]

theorem fetch_executions_split_loop_eq_flatMap (ds : List (Int × Execution))
    (b a o p : String) (size : Nat) (s e : Int) :
    fetch_executions_split_loop ds b a o p size s e =
      (batch_windows s e).flatMap fun w =>
        fetch_project_executions_batch_server ds b a o p size w.1 w.2 := by
  by_cases h : s < e
  · rw [fetch_executions_split_loop_of_lt ds b a o p size h,
      batch_windows_of_lt h, List.flatMap_cons,
      fetch_executions_split_loop_eq_flatMap ds b a o p size
        (min (s + batch_size_ms - 1) e + 1) e]
  · rw [fetch_executions_split_loop_of_ge ds b a o p size h,
      batch_windows_of_ge h]
    simp
termination_by (e - s).toNat
decreasing_by
  simp only [batch_size_ms]
  omega

theorem boundary_dataset_length : boundary_dataset.length = 10001 := by
  rw [boundary_dataset, List.length_append, List.length_replicate,
    List.length_singleton]

theorem boundary_matching_full :
    server_matching boundary_dataset 0 864000000 = boundary_dataset := by
  rw [server_matching, List.filter_eq_self]
  intro row hrow
  rcases List.mem_append.mp hrow with h | h
  · rw [List.eq_of_mem_replicate h]
    decide
  · simp only [List.mem_singleton] at h
    rw [h]
    decide

theorem boundary_matching_trunc :
    server_matching boundary_dataset 0 863999999 =
      List.replicate 10000 ((0 : Int), prod_execution) := by
  rw [server_matching, boundary_dataset, List.filter_append]
  have h1 : (List.replicate 10000 ((0 : Int), prod_execution)).filter
      (fun row => decide (0 ≤ row.1 ∧ row.1 ≤ 863999999)) =
      List.replicate 10000 ((0 : Int), prod_execution) := by
    rw [List.filter_eq_self]
    intro row hrow
    rw [List.eq_of_mem_replicate hrow]
    decide
  have h2 : [((864000000 : Int), prod_execution)].filter
      (fun row => decide (0 ≤ row.1 ∧ row.1 ≤ 863999999)) = [] := by
    decide
  rw [h1, h2, List.append_nil]

theorem boundary_total_elements :
    response_total_elements (server_response boundary_dataset 0 864000000 0 20000) = 10001 := by
  simp only [server_response, response_total_elements, Option.getD_some]
  rw [boundary_matching_full, boundary_dataset_length]

theorem boundary_tp_full :
    response_total_pages (server_response boundary_dataset 0 864000000 0 20000) = 1 := by
  simp only [server_response, response_total_pages, Option.getD_some]
  rw [boundary_matching_full, boundary_dataset_length]

theorem boundary_tp_trunc :
    response_total_pages (server_response boundary_dataset 0 863999999 0 20000) = 1 := by
  simp only [server_response, response_total_pages, Option.getD_some]
  rw [boundary_matching_trunc, List.length_replicate]

/-- **C2 (amended).**  For every full window `[s, e]` with `s ≤ e`, the
sub-windows the splitter iterates over are contiguous
(`sub[i].end + 1 = sub[i+1].start`), each is a nonempty closed interval of
width at most 10 days, the first starts at `fullWindow.start` whenever any
sub-window exists, and the last ends at `fullWindow.end` provided 10 days
does not divide `e - s`; moreover these windows are exactly the ones the
splitting loop of `fetch_project_executions` fetches.  (When 10 days
divides `e - s` the loop `while current_start < end_time` stops one window
early: the last sub-window ends at `e - 1` — or no sub-window is produced
at all when `s = e` — so the final millisecond of the full window is never
queried; see the counterexample.) -/
theorem c2_window_partition (s e : Int) (hse : s ≤ e) :
    List.Chain' (fun w1 w2 : Int × Int => w1.2 + 1 = w2.1) (batch_windows s e)
    ∧ (∀ w ∈ batch_windows s e,
        s ≤ w.1 ∧ w.1 ≤ w.2 ∧ w.2 - w.1 + 1 ≤ batch_size_ms ∧ w.2 ≤ e)
    ∧ (s < e → ((batch_windows s e).head?).map Prod.fst = some s)
    ∧ (¬ ((864000000 : Int) ∣ (e - s)) →
        ((batch_windows s e).getLast?).map Prod.snd = some e)
    ∧ ∀ (ds : List (Int × Execution)) (b a o p : String) (size : Nat),
        fetch_executions_split_loop ds b a o p size s e =
          (batch_windows s e).flatMap fun w =>
            fetch_project_executions_batch_server ds b a o p size w.1 w.2 := by
  refine ⟨batch_windows_chain s e, fun w hw => batch_windows_mem hw, ?_,
    batch_windows_getLast hse,
    fun ds b a o p size => fetch_executions_split_loop_eq_flatMap ds b a o p size s e⟩
  intro h
  rw [batch_windows_of_lt h]
  simp

/-- **C2 (counterexample).**  The full window `[0, 864000000]` — exactly
10 days from start to end, satisfiable with more than 10000 matching
executions — is split into the single sub-window `[0, 863999999]`: the
last sub-window does not end at `fullWindow.end`, refuting the claimed
`sub[last].end == fullWindow.end`. -/
theorem c2_counterexample :
    response_total_elements (server_response boundary_dataset 0 864000000 0 20000) > 10000
    ∧ batch_windows 0 864000000 = [(0, 863999999)]
    ∧ ((batch_windows 0 864000000).getLast?).map Prod.snd ≠ some (864000000 : Int) := by
  have hbw : batch_windows 0 864000000 = [(0, 863999999)] := by
    rw [batch_windows_of_lt (by norm_num)]
    have hmin : min (0 + batch_size_ms - 1) (864000000 : Int) = 863999999 := by
      rw [batch_size_ms_eq]
      norm_num
    rw [hmin,
      batch_windows_of_ge (by norm_num : ¬ (863999999 + 1 : Int) < 864000000)]
  refine ⟨?_, hbw, ?_⟩
  · rw [boundary_total_elements]
    norm_num
  · rw [hbw]
    decide

/-- **C2 (witness).**  A concrete instance of the amended theorem: the
window `[0, 5]` (width not a multiple of 10 days) is covered by contiguous
sub-windows starting at 0 and ending at 5. -/
theorem c2_witness :
    (0 : Int) ≤ 5
    ∧ ¬ ((864000000 : Int) ∣ ((5 : Int) - 0))
    ∧ List.Chain' (fun w1 w2 : Int × Int => w1.2 + 1 = w2.1) (batch_windows 0 5)
    ∧ ((batch_windows 0 5).head?).map Prod.fst = some (0 : Int)
    ∧ ((batch_windows 0 5).getLast?).map Prod.snd = some (5 : Int) := by
  have h := c2_window_partition 0 5 (by norm_num)
  exact ⟨by norm_num, by norm_num, h.1, h.2.2.1 (by norm_num),
    h.2.2.2.1 (by norm_num)⟩

theorem parse_one_prod_len (b a o p : String) :
    (parse_one_execution b a o p prod_execution).length = 1 := rfl

theorem flatMap_replicate_length {α β : Type} (n : Nat) (a : α) (f : α → List β) :
    ((List.replicate n a).flatMap f).length = n * (f a).length := by
  induction n with
  | zero => simp
  | succ n ih =>
    rw [List.replicate_succ, List.flatMap_cons, List.length_append, ih]
    ring

theorem parse_replicate_length (n : Nat) (b a o p : String) :
    ((List.replicate n prod_execution).flatMap (parse_one_execution b a o p)).length
      = n := by
  rw [flatMap_replicate_length, parse_one_prod_len, mul_one]

theorem parse_window_full_length (b a o p : String) :
    (parse_execution_data (server_response boundary_dataset 0 864000000 0 20000)
      b a o p).length = 10001 := by
  rw [parse_execution_data]
  have hc : response_content (server_response boundary_dataset 0 864000000 0 20000) =
      List.replicate 10000 prod_execution ++ [prod_execution] := by
    simp only [server_response, response_content, Option.getD_some]
    rw [boundary_matching_full, Nat.zero_mul, List.drop_zero,
      List.take_of_length_le (by rw [boundary_dataset_length]; norm_num),
      boundary_dataset, List.map_append, List.map_replicate]
    rfl
  rw [hc, List.flatMap_append, List.length_append, parse_replicate_length,
    List.flatMap_cons, List.flatMap_nil, List.append_nil, parse_one_prod_len]

theorem parse_window_trunc_length (b a o p : String) :
    (parse_execution_data (server_response boundary_dataset 0 863999999 0 20000)
      b a o p).length = 10000 := by
  rw [parse_execution_data]
  have hc : response_content (server_response boundary_dataset 0 863999999 0 20000) =
      List.replicate 10000 prod_execution := by
    simp only [server_response, response_content, Option.getD_some]
    rw [boundary_matching_trunc, Nat.zero_mul, List.drop_zero,
      List.take_of_length_le (by rw [List.length_replicate]; norm_num),
      List.map_replicate]
  rw [hc, parse_replicate_length]

theorem batch_loop_single_page (oracle : Nat → RawResponse)
    (b a o p : String) (fuel : Nat)
    (htp : response_total_pages (oracle 0) = 1) :
    fetch_project_executions_batch oracle b a o p fuel =
      (parse_execution_data (oracle 0) b a o p, 1) := by
  rw [fetch_project_executions_batch, fetch_project_executions_batch_loop.eq_def]
  simp [htp]

/-- **C1 (code-bug exhibit).**  On the dataset with 10001 matching
executions over the closed 10-day window `[0, 864000000]` — one of them at
the final millisecond — the splitting orchestrator
`fetch_project_executions` returns 10000 records while the unsplit
single-range paginate over the same full window derives 10001: the
record at `end_time` is silently dropped, because the loop
`while current_start < end_time` never queries the sub-window containing
the final millisecond when `end_time - start_time` is an exact multiple
of 10 days. -/
theorem c1_split_boundary_loss :
    (fetch_project_executions boundary_dataset "https://app.harness.io" "acct"
      "org" "proj" 20000 0 864000000).length = 10000
    ∧ (fetch_project_executions_batch_server boundary_dataset
        "https://app.harness.io" "acct" "org" "proj" 20000 0 864000000).length
        = 10001
    ∧ fetch_project_executions boundary_dataset "https://app.harness.io" "acct"
        "org" "proj" 20000 0 864000000 ≠
      fetch_project_executions_batch_server boundary_dataset
        "https://app.harness.io" "acct" "org" "proj" 20000 0 864000000 := by
  have hunsplit : (fetch_project_executions_batch_server boundary_dataset
      "https://app.harness.io" "acct" "org" "proj" 20000 0 864000000).length
      = 10001 := by
    rw [fetch_project_executions_batch_server,
      batch_loop_single_page _ _ _ _ _ _ boundary_tp_full]
    exact parse_window_full_length _ _ _ _
  have hsplit : (fetch_project_executions boundary_dataset "https://app.harness.io"
      "acct" "org" "proj" 20000 0 864000000).length = 10000 := by
    rw [fetch_project_executions]
    simp only [boundary_total_elements]
    rw [if_neg (by norm_num)]
    rw [fetch_executions_split_loop_of_lt _ _ _ _ _ _ (by norm_num)]
    have hmin : min (0 + batch_size_ms - 1) (864000000 : Int) = 863999999 := by
      rw [batch_size_ms_eq]
      norm_num
    rw [hmin,
      fetch_executions_split_loop_of_ge _ _ _ _ _ _
        (by norm_num : ¬ (863999999 + 1 : Int) < 864000000),
      List.append_nil]
    rw [fetch_project_executions_batch_server,
      batch_loop_single_page _ _ _ _ _ _ boundary_tp_trunc]
    exact parse_window_trunc_length _ _ _ _
  refine ⟨hsplit, hunsplit, fun heq => ?_⟩
  rw [heq, hunsplit] at hsplit
  exact absurd hsplit (by norm_num)

theorem extract_stage_data_eq (m : List (String × NodeData)) (f ex_id : String) :
    extract_stage_data m f ex_id =
      (m.filter fun q => decide (node_cd_type q.2 = some f)).map fun q =>
        node_stage q.2 := by
  induction m with
  | nil => rfl
  | cons hd tl ih =>
    simp only [extract_stage_data] at ih
    simp only [extract_stage_data, List.flatMap_cons, List.filter_cons, ih]
    rcases hcd : hd.2.cd with _ | ocd
    · simp [node_cd_type, hcd]
    · rcases ocd with _ | d
      · simp [node_cd_type, hcd]
      · rcases hinf : d.infraExecutionSummary with _ | infra
        · have htype : node_cd_type hd.2 = none := by
            simp [node_cd_type, hcd, hinf]
          by_cases htr : d.isTruthy <;> simp [hcd, hinf, htr, htype]
        · have htype : node_cd_type hd.2 = infra.type := by
            simp [node_cd_type, hcd, hinf]
          by_cases h : infra.type = some f
          · have htr : d.isTruthy = true := by
              simp [CdInfo.isTruthy, hinf]
            simp [hcd, hinf, htr, htype, h, node_stage]
          · by_cases htr : d.isTruthy <;> simp [hcd, hinf, htr, htype, h]

/-- **C7.**  A node of the layout-node map is retained by
`extract_stage_data` exactly when its `moduleInfo.cd.infraExecutionSummary.type`
equals the configured environment filter (the parameter defaults to
`"Production"`); all other nodes — non-matching type, missing `cd`, null
`cd`, missing infra metadata — are excluded, and a retained node's service
name is the empty string when `serviceInfo` is absent or null. -/
theorem c7_production_filter (m : List (String × NodeData))
    (env_filter ex_id : String) :
    extract_stage_data m env_filter ex_id =
      (m.filter fun q => decide (node_cd_type q.2 = some env_filter)).map
        (fun q => node_stage q.2)
    ∧ ∀ (node_data : NodeData) (cd_info : CdInfo),
        node_data.cd = some (some cd_info) →
        (cd_info.serviceInfo = none ∨ cd_info.serviceInfo = some none) →
        (node_stage node_data).service_name = "" := by
  refine ⟨extract_stage_data_eq m env_filter ex_id, ?_⟩
  intro node_data cd_info hcd hsvc
  rcases hsvc with h | h <;> simp [node_stage, hcd, h]

/-- **C7 (witness).**  On a concrete two-node map, only the Production
node is retained, and — its `serviceInfo` being absent — its service name
is blank. -/
theorem c7_witness :
    extract_stage_data demo_map "Production" "" =
      (demo_map.filter fun q => decide (node_cd_type q.2 = some "Production")).map
        (fun q => node_stage q.2)
    ∧ extract_stage_data demo_map "Production" "" = [node_stage demo_node]
    ∧ (node_stage demo_node).service_name = "" := by
  refine ⟨(c7_production_filter demo_map "Production" "").1, ?_,
    (c7_production_filter demo_map "Production" "").2 demo_node demo_cd rfl
      (Or.inl rfl)⟩
  decide

theorem parse_one_eq (b a o p : String) (ex : Execution) :
    parse_one_execution b a o p ex =
      (extract_stage_data ex.layoutNodeMap "Production"
        (ex.planExecutionId.getD "")).map (execution_record b a o p ex) := by
  rw [parse_one_execution]
  cases h : (extract_stage_data ex.layoutNodeMap "Production"
      (ex.planExecutionId.getD "")).isEmpty
  · simp [h]
  · simp [List.isEmpty_iff.mp h]

theorem parse_one_filter (l : List Execution) (b a o p : String) :
    l.flatMap (parse_one_execution b a o p) =
      (l.filter fun ex =>
          !((extract_stage_data ex.layoutNodeMap "Production"
              (ex.planExecutionId.getD "")).isEmpty)).flatMap
        fun ex =>
          (extract_stage_data ex.layoutNodeMap "Production"
            (ex.planExecutionId.getD "")).map (execution_record b a o p ex) := by
  induction l with
  | nil => rfl
  | cons hd tl ih =>
    rw [List.flatMap_cons, List.filter_cons, ih]
    cases h : (extract_stage_data hd.layoutNodeMap "Production"
        (hd.planExecutionId.getD "")).isEmpty
    · simp only [h, Bool.not_false, if_pos, List.flatMap_cons]
      rw [parse_one_eq]
    · simp only [h, Bool.not_true, if_neg, Bool.false_eq_true, not_false_iff]
      rw [parse_one_execution, if_pos h]
      rfl

/-- **C5.**  `parse_execution_data` equals the flattening over only those
executions whose extracted stage list is nonempty: an execution with an
empty stage list contributes zero rows (it is silently skipped, never
emitted with blank stage fields). -/
theorem c5_zero_stage_drop (r : RawResponse) (b a o p : String) :
    parse_execution_data r b a o p =
      ((response_content r).filter fun ex =>
          !((extract_stage_data ex.layoutNodeMap "Production"
              (ex.planExecutionId.getD "")).isEmpty)).flatMap
        fun ex =>
          (extract_stage_data ex.layoutNodeMap "Production"
            (ex.planExecutionId.getD "")).map (execution_record b a o p ex) := by
  rw [parse_execution_data, parse_one_filter]

/-- **C9.**  `parse_execution_data` emits, for every execution of the
page, exactly one row per extracted stage — in stage order within
execution order — and every row of one execution shares the
execution-level fields (pipeline name, project id, execution URL, start
time, end time, duration) while carrying its own stage-level fields
(service name, environment name, stage status). -/
theorem c9_row_per_stage (r : RawResponse) (b a o p : String) :
    parse_execution_data r b a o p =
      (response_content r).flatMap (fun ex =>
        (extract_stage_data ex.layoutNodeMap "Production"
          (ex.planExecutionId.getD "")).map (execution_record b a o p ex))
    ∧ (∀ (ex : Execution) (s1 s2 : StageInfo),
        (execution_record b a o p ex s1).pipeline =
            (execution_record b a o p ex s2).pipeline
        ∧ (execution_record b a o p ex s1).project_id =
            (execution_record b a o p ex s2).project_id
        ∧ (execution_record b a o p ex s1).execution_url =
            (execution_record b a o p ex s2).execution_url
        ∧ (execution_record b a o p ex s1).start_time =
            (execution_record b a o p ex s2).start_time
        ∧ (execution_record b a o p ex s1).end_time =
            (execution_record b a o p ex s2).end_time
        ∧ (execution_record b a o p ex s1).duration =
            (execution_record b a o p ex s2).duration)
    ∧ ∀ (ex : Execution) (s : StageInfo),
        (execution_record b a o p ex s).service_name = s.service_name
        ∧ (execution_record b a o p ex s).environment_name = s.environment_name
        ∧ (execution_record b a o p ex s).status = s.status := by
  refine ⟨?_, ?_, ?_⟩
  · have hfun : parse_one_execution b a o p = fun ex =>
        (extract_stage_data ex.layoutNodeMap "Production"
          (ex.planExecutionId.getD "")).map (execution_record b a o p ex) :=
      funext (parse_one_eq b a o p)
    rw [parse_execution_data, hfun]
  · intro ex s1 s2
    exact ⟨rfl, rfl, rfl, rfl, rfl, rfl⟩
  · intro ex s
    exact ⟨rfl, rfl, rfl⟩

theorem batch_stops_empty (oracle : Nat → RawResponse) (b a o p : String)
    (fuel : Nat) (htp : response_total_pages (oracle 0) = 0)
    (hc : response_content (oracle 0) = []) :
    fetch_project_executions_batch oracle b a o p fuel = ([], 1) := by
  rw [fetch_project_executions_batch, fetch_project_executions_batch_loop.eq_def]
  simp [htp, parse_execution_data, hc]

/-- **C6.**  When the probe page reports `totalPages = 0` (and, per the
`PageResponse` invariant, carries no content), the single-range paginator
returns the empty record sequence after exactly one request: the break
condition `page >= total_pages - 1 or total_pages == 0` fires on page 0
regardless of the available fuel, so the loop never iterates. -/
theorem c6_total_pages_zero (oracle : Nat → RawResponse) (b a o p : String)
    (fuel : Nat) (htp : response_total_pages (oracle 0) = 0)
    (hc : response_content (oracle 0) = []) :
    fetch_project_executions_batch oracle b a o p fuel = ([], 1) :=
  batch_stops_empty oracle b a o p fuel htp hc

/-- **C6 (witness).**  A concrete empty page: one probe request, no
records, for any fuel. -/
theorem c6_witness :
    response_total_pages empty_exec_response = 0
    ∧ response_content empty_exec_response = []
    ∧ fetch_project_executions_batch (fun _ => empty_exec_response)
        "b" "a" "o" "p" 5 = ([], 1) :=
  ⟨rfl, rfl,
    c6_total_pages_zero (fun _ => empty_exec_response) "b" "a" "o" "p" 5 rfl rfl⟩

/-- **C8.**  Malformed responses are treated as empty successes, per the
defensive `.get(..., default)` pattern: a missing `data` key yields
`totalPages = 0`, `totalElements = 0`, zero parsed records, and the
paginator completes with an empty result after one request instead of
raising; a missing `content`, `totalPages` or `totalElements` under a
present `data` likewise defaults to `[]` / `0` / `0`. -/
theorem c8_malformed_empty_success (r : RawResponse) (b a o p : String) :
    (r.data = none →
      response_total_pages r = 0 ∧ response_total_elements r = 0 ∧
      parse_execution_data r b a o p = [] ∧
      ∀ (oracle : Nat → RawResponse) (fuel : Nat), oracle 0 = r →
        fetch_project_executions_batch oracle b a o p fuel = ([], 1))
    ∧ (∀ d : RawData, r.data = some d → d.content = none →
        parse_execution_data r b a o p = [])
    ∧ (∀ d : RawData, r.data = some d → d.totalPages = none →
        response_total_pages r = 0)
    ∧ ∀ d : RawData, r.data = some d → d.totalElements = none →
        response_total_elements r = 0 := by
  refine ⟨?_, ?_, ?_, ?_⟩
  · intro h
    refine ⟨by simp [response_total_pages, h],
      by simp [response_total_elements, h],
      by simp [parse_execution_data, response_content, h], ?_⟩
    intro oracle fuel h0
    exact batch_stops_empty oracle b a o p fuel
      (by rw [h0]; simp [response_total_pages, h])
      (by rw [h0]; simp [response_content, h])
  · intro d hd hc
    simp [parse_execution_data, response_content, hd, hc]
  · intro d hd htp
    simp [response_total_pages, hd, htp]
  · intro d hd hte
    simp [response_total_elements, hd, hte]

/-- **C8 (witness).**  The fully malformed response (no `data` key) is an
empty success for the paginator. -/
theorem c8_witness :
    malformed_response.data = none
    ∧ response_total_pages malformed_response = 0
    ∧ response_total_elements malformed_response = 0
    ∧ parse_execution_data malformed_response "b" "a" "o" "p" = []
    ∧ fetch_project_executions_batch (fun _ => malformed_response)
        "b" "a" "o" "p" 7 = ([], 1) := by
  have h := (c8_malformed_empty_success malformed_response "b" "a" "o" "p").1 rfl
  exact ⟨rfl, h.1, h.2.1, h.2.2.1, h.2.2.2 (fun _ => malformed_response) 7 rfl⟩

/-- **C3.**  On the execution-listing endpoint: when every attempt fails,
exactly 3 attempts are made, sleeping 2 seconds after the first failure
and 4 after the second, and the outcome is precisely the (re-raised)
error of the final attempt; when attempt `i` is the first to succeed, its
decoded response is returned after `i + 1` attempts (with the waits slept
so far) and no further attempts are made. -/
theorem c3_retry_policy (oracle : Nat → Except String RawResponse) :
    ((∀ i, i < 3 → ∃ e, oracle i = .error e) →
      fetch_pipeline_executions oracle = (oracle 2, 3, [2, 4]))
    ∧ ∀ (i : Nat) (r : RawResponse), i < 3 → oracle i = .ok r →
        (∀ j, j < i → ∃ e, oracle j = .error e) →
        fetch_pipeline_executions oracle =
          (.ok r, i + 1, (List.range i).map fun j => (j + 1) * 2) := by
  constructor
  · intro h
    obtain ⟨e0, h0⟩ := h 0 (by norm_num)
    obtain ⟨e1, h1⟩ := h 1 (by norm_num)
    obtain ⟨e2, h2⟩ := h 2 (by norm_num)
    rw [fetch_pipeline_executions]
    simp [fetch_pipeline_executions_retry, h0, h1, h2]
  · intro i r hi hok hprev
    interval_cases i
    · rw [fetch_pipeline_executions]
      simp [fetch_pipeline_executions_retry, hok]
    · obtain ⟨e0, h0⟩ := hprev 0 (by norm_num)
      rw [fetch_pipeline_executions]
      simp [fetch_pipeline_executions_retry, h0, hok, List.range_succ]
    · obtain ⟨e0, h0⟩ := hprev 0 (by norm_num)
      obtain ⟨e1, h1⟩ := hprev 1 (by norm_num)
      rw [fetch_pipeline_executions]
      simp [fetch_pipeline_executions_retry, h0, h1, hok, List.range_succ]

/-- **C3 (witness).**  An always-failing client: 3 attempts, waits 2 then
4 seconds, and the error surfaces. -/
theorem c3_witness :
    (∀ i, i < 3 →
      ∃ e, (fun _ => (Except.error "boom" : Except String RawResponse)) i
        = .error e)
    ∧ fetch_pipeline_executions
        (fun _ => (Except.error "boom" : Except String RawResponse)) =
        (.error "boom", 3, [2, 4]) := by
  refine ⟨fun i _ => ⟨"boom", rfl⟩, ?_⟩
  exact (c3_retry_policy fun _ => .error "boom").1 fun i _ => ⟨"boom", rfl⟩

theorem fetch_all_projects_loop_error (k : Nat) :
    ∀ (oracle : Nat → Except String ProjRawResponse) (e : String)
      (start fuel : Nat),
      (∀ p, p < k → ∃ r, oracle (start + p) = .ok r ∧
          start + p < proj_response_total_pages r - 1) →
      oracle (start + k) = .error e → k ≤ fuel →
      fetch_all_projects_loop oracle start fuel = (.error e, k + 1) := by
  induction k with
  | zero =>
    intro oracle e start fuel _ herr _
    have herr' : oracle start = Except.error e := herr
    rw [fetch_all_projects_loop.eq_def]
    simp [fetch_projects, herr']
  | succ k ih =>
    intro oracle e start fuel hok herr hfuel
    obtain ⟨r0, hr0, hcont⟩ := hok 0 (by omega)
    have hr0' : oracle start = Except.ok r0 := hr0
    obtain ⟨fuel', rfl⟩ : ∃ f', fuel = f' + 1 := ⟨fuel - 1, by omega⟩
    have hshift : ∀ p, p < k → ∃ r, oracle (start + 1 + p) = .ok r ∧
        start + 1 + p < proj_response_total_pages r - 1 := by
      intro p hp
      obtain ⟨r, hr, hc⟩ := hok (p + 1) (by omega)
      have he : start + 1 + p = start + (p + 1) := by omega
      rw [he]
      exact ⟨r, hr, hc⟩
    have herr' : oracle (start + 1 + k) = .error e := by
      have hh : start + 1 + k = start + (k + 1) := by omega
      rw [hh]
      exact herr
    have hrest := ih oracle e (start + 1) fuel' hshift herr' (by omega)
    rw [fetch_all_projects_loop.eq_def]
    simp only [fetch_projects, Nat.add_zero]
    rw [hr0']
    have hcont' : ¬ start ≥ proj_response_total_pages r0 - 1 := by omega
    simp [hcont', hrest]

/-- **C4.**  The project-listing endpoint is never retried:
`fetch_projects` issues exactly one request, a failing request's error is
propagated unmodified, and a failure on page `k` aborts the whole
enumeration after `k + 1` requests, discarding no diagnostic — in
contrast to the execution-listing endpoint, whose client retries up to 3
attempts. -/
theorem c4_project_no_retry :
    (∀ oracle : Nat → Except String ProjRawResponse,
      (fetch_projects oracle).2 = 1)
    ∧ (∀ (oracle : Nat → Except String ProjRawResponse) (e : String),
        oracle 0 = .error e → (fetch_projects oracle).1 = .error e)
    ∧ ∀ (oracle : Nat → Except String ProjRawResponse) (e : String)
        (k fuel : Nat),
        (∀ p, p < k → ∃ r, oracle p = .ok r ∧
            p < proj_response_total_pages r - 1) →
        oracle k = .error e → k ≤ fuel →
        fetch_all_projects oracle fuel = (.error e, k + 1) := by
  refine ⟨fun oracle => rfl, fun oracle e h => h, ?_⟩
  intro oracle e k fuel hok herr hfuel
  rw [fetch_all_projects]
  exact fetch_all_projects_loop_error k oracle e 0 fuel
    (by intro p hp; simpa using hok p hp) (by simpa using herr) hfuel

/-- **C4 (witness).**  A concrete enumeration whose second request fails:
one request per `fetch_projects` call, abort after 2 requests. -/
theorem c4_witness :
    (fetch_projects c4_oracle).2 = 1
    ∧ c4_oracle 1 = .error "connection reset"
    ∧ fetch_all_projects c4_oracle 9 = (.error "connection reset", 2) := by
  refine ⟨c4_project_no_retry.1 c4_oracle, rfl, ?_⟩
  refine c4_project_no_retry.2.2 c4_oracle "connection reset" 1 9 ?_ rfl
    (by norm_num)
  intro p hp
  have hp0 : p = 0 := by omega
  subst hp0
  exact ⟨c4_page0, rfl, by decide⟩

theorem fetch_all_projects_loop_ok (n : Nat) :
    ∀ (oracle : Nat → Except String ProjRawResponse)
      (resps : Nat → ProjRawResponse) (start fuel : Nat),
      (∀ p, p ≤ n → oracle (start + p) = .ok (resps p)) →
      (∀ p, p < n → start + p < proj_response_total_pages (resps p) - 1) →
      ¬ (start + n < proj_response_total_pages (resps n) - 1) →
      n ≤ fuel →
      fetch_all_projects_loop oracle start fuel =
        (.ok ((List.range (n + 1)).flatMap fun p =>
            (proj_response_content (resps p)).filterMap keep_identifier),
          n + 1) := by
  induction n with
  | zero =>
    intro oracle resps start fuel hok _ hbrk _
    have hr0 : oracle start = Except.ok (resps 0) := hok 0 (by omega)
    rw [fetch_all_projects_loop.eq_def]
    simp only [fetch_projects, Nat.add_zero]
    rw [hr0]
    have hb : start ≥ proj_response_total_pages (resps 0) - 1 := by omega
    simp [hb, List.range_succ]
  | succ n ih =>
    intro oracle resps start fuel hok hcont hbrk hfuel
    obtain ⟨fuel', rfl⟩ : ∃ f', fuel = f' + 1 := ⟨fuel - 1, by omega⟩
    have hr0 : oracle start = Except.ok (resps 0) := hok 0 (by omega)
    have hrest := ih oracle (fun p => resps (p + 1)) (start + 1) fuel'
      (by
        intro p hp
        have hh : start + 1 + p = start + (p + 1) := by omega
        rw [hh]
        exact hok (p + 1) (by omega))
      (by
        intro p hp
        have hh : start + 1 + p = start + (p + 1) := by omega
        rw [hh]
        exact hcont (p + 1) (by omega))
      (by
        have hh : start + 1 + n = start + (n + 1) := by omega
        rw [hh]
        exact hbrk)
      (by omega)
    rw [fetch_all_projects_loop.eq_def]
    simp only [fetch_projects, Nat.add_zero]
    rw [hr0]
    have hcont0 : ¬ start ≥ proj_response_total_pages (resps 0) - 1 := by
      have := hcont 0 (by omega)
      omega
    simp [hcont0, hrest, List.range_succ_eq_map, List.flatMap_map]

/-- **C10.**  Against a consistent project-listing server with `P` total
pages, the enumerator returns, in server order, exactly the identifiers of
the entries whose `projectResponse.project.identifier` is present and
nonempty (duplicates preserved), issuing `max P 1` requests; entries with
a missing, null or empty identifier are silently dropped, so the output
may be shorter than the server's `totalElements`. -/
theorem c10_enumerator (oracle : Nat → Except String ProjRawResponse)
    (resps : Nat → ProjRawResponse) (P fuel : Nat)
    (hok : ∀ p, oracle p = .ok (resps p))
    (htp : ∀ p, proj_response_total_pages (resps p) = P)
    (hfuel : P ≤ fuel + 1) :
    fetch_all_projects oracle fuel =
      (.ok ((List.range (max P 1)).flatMap fun p =>
          (proj_response_content (resps p)).filterMap keep_identifier),
        max P 1)
    ∧ (∀ entry : ProjectEntry, project_entry_identifier entry = none →
        keep_identifier entry = none)
    ∧ (∀ entry : ProjectEntry, project_entry_identifier entry = some "" →
        keep_identifier entry = none)
    ∧ ∀ (entry : ProjectEntry) (s : String),
        project_entry_identifier entry = some s → s ≠ "" →
        keep_identifier entry = some s := by
  refine ⟨?_, ?_, ?_, ?_⟩
  · have hmain := fetch_all_projects_loop_ok (max P 1 - 1) oracle resps 0 fuel
      (fun p _ => by simpa using hok p)
      (fun p hp => by
        simp only [Nat.zero_add]
        rw [htp p]
        omega)
      (by
        simp only [Nat.zero_add]
        rw [htp (max P 1 - 1)]
        omega)
      (by omega)
    have hfix : max P 1 - 1 + 1 = max P 1 := by omega
    rw [hfix] at hmain
    rw [fetch_all_projects]
    exact hmain
  · intro entry h
    simp [keep_identifier, h]
  · intro entry h
    simp [keep_identifier, h]
  · intro entry s h hs
    simp [keep_identifier, h, hs]

/-- **C10 (witness).**  Two pages with four entries — one missing
identifier, one empty identifier, the identifier `"alpha"` twice — give
exactly `["alpha", "alpha"]` after 2 requests. -/
theorem c10_witness :
    (∀ p, c10_oracle p = .ok (c10_resps p))
    ∧ (∀ p, proj_response_total_pages (c10_resps p) = 2)
    ∧ fetch_all_projects c10_oracle 1 = (.ok ["alpha", "alpha"], 2) := by
  have htp : ∀ p, proj_response_total_pages (c10_resps p) = 2 := by
    intro p
    by_cases h : p = 0 <;>
      simp [c10_resps, h, c10_page0, c10_page1, proj_response_total_pages]
  have h := c10_enumerator c10_oracle c10_resps 2 1 (fun p => rfl) htp
    (by norm_num)
  refine ⟨fun p => rfl, htp, ?_⟩
  rw [h.1]
  rfl
